import Mathlib

/-!
Verification development for the RuneLiteAI database extractor
(`database_extractor.py`).

The script is sequential glue code over a PostgreSQL driver and the
filesystem.  We shallowly embed the pure content of each routine:

* a table is its column names together with its rows of SQL values;
* a `SELECT * FROM t` returns the rows in result order, and
  `SELECT * FROM t LIMIT n` returns the first `n` of them;
* driver / IO failures are injected through `Except` parameters, since the
  script only branches on whether an exception was raised, never on its
  content;
* the filesystem is an association list from paths to file contents, and
  writing a file conses onto it.

Definitions mirror `database_extractor.py`; line references are given in
the doc comments.
-/

/-- A SQL value as surfaced by the driver.  `timestamp iso` stands for a
date/time-typed value (the only values with an `isoformat` attribute in
this data model); it carries the ISO-8601 rendering that `.isoformat()`
would return.  `decimal`, `timedelta` and `memview` model the driver
values for `numeric`, `interval` and `bytea` columns: none of them has an
`isoformat` attribute, none is JSON-serializable, and each carries the
rendering Python's `str()` gives it (for a `memoryview` that rendering is
address-dependent at runtime; the model just carries it). -/
inductive Value where
  | null : Value
  | bool (b : Bool) : Value
  | int (n : Int) : Value
  | str (s : String) : Value
  | timestamp (iso : String) : Value
  | decimal (rendering : String) : Value
  | timedelta (rendering : String) : Value
  | memview (rendering : String) : Value
deriving DecidableEq, Repr

/-- Model of Python's `hasattr(value, 'isoformat')` test on line 131: in
this data model exactly the date/time-typed values carry the attribute. -/
def hasIsoformat : Value → Bool
  | Value.timestamp _ => true
  | _ => false

/-- The per-value conversion of `export_table_to_json` (lines 131-134):
a value with an `isoformat` attribute is replaced by its ISO-8601 string;
every other value is stored unchanged. -/
def convertValue : Value → Value
  | Value.timestamp iso => Value.str iso
  | v => v

/-- The values the `json` module serialises natively: `None`, booleans,
numbers and strings.  (A raw `datetime` would not be, but the conversion
loop has already replaced every value with an `isoformat` attribute by a
string before `json.dump` runs.) -/
def jsonSerializable : Value → Bool
  | Value.null => true
  | Value.bool _ => true
  | Value.int _ => true
  | Value.str _ => true
  | _ => false

/-- Python's `str(value)`, as the `default=str` fallback of `json.dump`
applies it (line 140).  The constructors for driver values carry their
`str()` rendering; a date/time value is abstracted by its ISO rendering
here, though after the conversion loop none ever reaches the fallback. -/
def pyStr : Value → String
  | Value.null => "None"
  | Value.bool b => if b then "True" else "False"
  | Value.int n => toString n
  | Value.str s => s
  | Value.timestamp iso => iso
  | Value.decimal rendering => rendering
  | Value.timedelta rendering => rendering
  | Value.memview rendering => rendering

/-- One value as `json.dump(data, f, indent=2, default=str)` (line 140)
writes it into the document: a JSON-serializable value is written as-is;
any other value is replaced by the string the `default=str` fallback
produces. -/
def serializeValue (v : Value) : Value :=
  if jsonSerializable v then v else Value.str (pyStr v)

/-- A table snapshot: column names (in declaration order, as reported by
`cursor.description`) and rows in result order. -/
structure Table where
  columns : List String
  rows : List (List Value)
deriving DecidableEq, Repr

/-- Result of `cursor.execute("SELECT * FROM t"); cursor.fetchall()`
together with the column names from `cursor.description`
(lines 95-98 / 119-125). -/
def select_all (t : Table) : List String × List (List Value) :=
  (t.columns, t.rows)

/-- Result of `SELECT * FROM t LIMIT limit` (line 119): the first `limit`
rows of the unrestricted result, with the column names. -/
def select_limit (t : Table) (limit : Nat) : List String × List (List Value) :=
  (t.columns, t.rows.take limit)

/-- The inner loop of `export_table_to_json` (lines 128-134): builds
`row_dict` by walking the row and pairing each value, converted, with the
column name of the same index. -/
def row_dict : List String → List Value → List (String × Value)
  | c :: cs, v :: vs => (c, convertValue v) :: row_dict cs vs
  | _, _ => []

/-- The outer loop of `export_table_to_json` (lines 126-135): `data` starts
empty and one `row_dict` is appended per fetched row, in order. -/
def json_data_loop (cols : List String) : List (List Value) → List (List (String × Value))
  | [] => []
  | row :: rest => row_dict cols row :: json_data_loop cols rest

/-- The in-memory `data` list `export_table_to_json` builds for table `t`
with row cap `limit` (lines 119-135): the converted dictionaries of the
rows returned by `SELECT * FROM t LIMIT limit`.  Line 140 then serialises
this list with `json.dump(data, f, indent=2, default=str)`; the written
document is `export_table_to_json_document` below. -/
def export_table_to_json_records (t : Table) (limit : Nat) : List (List (String × Value)) :=
  json_data_loop (select_limit t limit).1 (select_limit t limit).2

/-- `default=str` applied across one record of the `data` list. -/
def serialize_record : List (String × Value) → List (String × Value)
  | [] => []
  | (k, v) :: rest => (k, serializeValue v) :: serialize_record rest

/-- `json.dump(data, f, indent=2, default=str)` (line 140) over the whole
`data` list: every non-serializable value is stringified on the way into
the file. -/
def json_dump_default_str : List (List (String × Value)) → List (List (String × Value))
  | [] => []
  | r :: rest => serialize_record r :: json_dump_default_str rest

/-- The JSON document actually written for table `t` with row cap `limit`:
the `data` list of the conversion loop, serialised by `json.dump` with the
`default=str` fallback. -/
def export_table_to_json_document (t : Table) (limit : Nat) : List (List (String × Value)) :=
  json_dump_default_str (export_table_to_json_records t limit)

/-- Rendering of one value by the `csv` writer (line 105): Python's
`str()` of the value, with `None` written as the empty field. -/
def csvCell : Value → String
  | Value.null => ""
  | Value.bool b => if b then "True" else "False"
  | Value.int n => toString n
  | Value.str s => s
  | Value.timestamp iso => iso
  | Value.decimal rendering => rendering
  | Value.timedelta rendering => rendering
  | Value.memview rendering => rendering

/-- `writer.writerows(cursor.fetchall())` (line 105): one CSV record per
fetched row, in order. -/
def csv_rows_loop : List (List Value) → List (List String)
  | [] => []
  | row :: rest => row.map csvCell :: csv_rows_loop rest

/-- The CSV records `export_table_to_csv` writes for table `t`
(lines 95-105): the header record of column names from
`cursor.description`, then one record per row of `SELECT * FROM t`. -/
def export_table_to_csv_records (t : Table) : List (List String) :=
  (select_all t).1 :: csv_rows_loop (select_all t).2

example : export_table_to_csv_records ⟨["a", "b"], []⟩ = [["a", "b"]] := rfl
example : export_table_to_json_records ⟨["a"], [[Value.int 1], [Value.int 2]]⟩ 1
    = [[("a", Value.int 1)]] := rfl
example : row_dict ["t"] [Value.timestamp "2025-01-01T00:00:00"]
    = [("t", Value.str "2025-01-01T00:00:00")] := rfl

/-- A filesystem snapshot: an association list from paths to JSON file
contents.  Writing a file conses the new binding onto the front. -/
def FS := List (String × List (List (String × Value)))

/-- `export_table_to_json` with its fallible steps made explicit
(lines 115-148).  In the source, `cursor.execute`, `fetchall` and the
conversion loop (lines 119-135) all run inside the `try` block and
*before* `open(json_file, 'w')` on line 139; `qres` is the combined
outcome of those steps (on success: the column names and the converted
target of the LIMITed query).  Only on success is the file written; on any
exception the handler (lines 146-148) prints a warning and returns
`False`, leaving the filesystem untouched. -/
def export_table_to_json (qres : Except String (List String × List (List Value)))
    (path : String) (fs : FS) : Bool × FS :=
  match qres with
  | Except.error _ => (false, fs)
  | Except.ok (cols, rows) => (true, (path, json_data_loop cols rows) :: fs)

/-- Outcome of one guarded export attempt: `export_table_to_csv` /
`export_table_to_json` wrap their whole body in `try`/`except` and return
`True` on success and `False` on a caught exception (lines 109, 113, 144,
148).  `q` is the oracle giving each table's fallible body outcome. -/
def export_attempt (q : String → Except String Unit) (table : String) : Bool :=
  match q table with
  | Except.ok _ => true
  | Except.error _ => false

/-- The export loop of `run_extraction` (lines 292-295): for each table
name, in order, one CSV attempt then one JSON attempt; both attempts
return a `Bool` and the loop continues regardless. -/
def run_extraction_exports (qcsv qjson : String → Except String Unit) :
    List String → List (String × Bool × Bool)
  | [] => []
  | table :: rest =>
    (table, export_attempt qcsv table, export_attempt qjson table)
      :: run_extraction_exports qcsv qjson rest

/-- A Table Descriptor as collected by `run_extraction` from
`get_table_info` (lines 68-89): column metadata triples
`(column_name, data_type, is_nullable)` in declaration order, and the
`COUNT(*)` row count. -/
structure TableInfo where
  columns : List (String × String × String)
  row_count : Nat
deriving DecidableEq, Repr

/-- Per-table block of the Summary Document (lines 161-166). -/
structure TableSummary where
  row_count : Nat
  column_count : Nat
  columns : List (String × String × String)
deriving DecidableEq, Repr

/-- The Summary Document built by `generate_summary_report`
(lines 152-169). -/
structure Summary where
  export_timestamp : String
  database_info : String
  total_tables : Nat
  tables : List (String × TableSummary)
  total_rows : Nat
deriving DecidableEq, Repr

/-- The loop of `generate_summary_report` (lines 159-167): starting from
accumulator `acc` (the source starts at `0`), it adds each descriptor's
`row_count` into the running total and records the per-table summary
block, returning the final total and the table blocks in order. -/
def summary_loop (acc : Nat) : List (String × TableInfo) → Nat × List (String × TableSummary)
  | [] => (acc, [])
  | (nm, info) :: rest =>
    let r := summary_loop (acc + info.row_count) rest
    (r.1, (nm, ⟨info.row_count, info.columns.length, info.columns⟩) :: r.2)

/-- `generate_summary_report` (lines 150-169): `total_tables` is the
number of collected descriptors, `total_rows` the loop's running sum. -/
def generate_summary_report (export_timestamp database_info : String)
    (tables_info : List (String × TableInfo)) : Summary :=
  { export_timestamp := export_timestamp
    database_info := database_info
    total_tables := tables_info.length
    tables := (summary_loop 0 tables_info).2
    total_rows := (summary_loop 0 tables_info).1 }

example : (generate_summary_report "ts" "runelite_ai"
    [("sessions", ⟨[("id", "integer", "NO")], 5⟩), ("game_ticks", ⟨[], 0⟩)]).total_rows
    = 5 := rfl
example : (generate_summary_report "ts" "runelite_ai"
    [("sessions", ⟨[("id", "integer", "NO")], 5⟩), ("game_ticks", ⟨[], 0⟩)]).total_tables
    = 2 := rfl

/-- The fixed, hard-coded set of sample queries of `export_sample_queries`
(lines 198-232), as `(query_name, query_sql)` pairs in source order.  The
SQL text is the source's, with inner whitespace normalised to single
spaces. -/
def sample_queries : List (String × String) :=
  [("sessions_overview",
    "SELECT session_id, player_name, start_time, end_time, EXTRACT(EPOCH FROM (end_time - start_time))/60 as duration_minutes FROM sessions ORDER BY start_time DESC LIMIT 10;"),
   ("tick_performance",
    "SELECT session_id, AVG(processing_time_ms) as avg_processing_ms, COUNT(*) as tick_count, MIN(processing_time_ms) as min_processing_ms, MAX(processing_time_ms) as max_processing_ms FROM game_ticks GROUP BY session_id ORDER BY avg_processing_ms DESC;"),
   ("player_locations",
    "SELECT world_x, world_y, plane, COUNT(*) as frequency FROM player_location GROUP BY world_x, world_y, plane ORDER BY frequency DESC LIMIT 20;"),
   ("recent_activity",
    "SELECT gt.session_id, gt.tick_number, gt.timestamp, gt.processing_time_ms, pl.world_x, pl.world_y, pl.plane FROM game_ticks gt LEFT JOIN player_location pl ON gt.session_id = pl.session_id AND gt.tick_number = pl.tick_number ORDER BY gt.timestamp DESC LIMIT 100;")]

/-- What the results file records for one query: on success the column
names and the stringified result rows (lines 246-257), on a caught
exception the error text written in place of results (line 260). -/
inductive QueryOutcome where
  | results (cols : List String) (rows : List (List String)) : QueryOutcome
  | failure (err : String) : QueryOutcome
deriving DecidableEq, Repr

/-- One iteration of the query loop (lines 240-260): the `try` block
executes the SQL and renders its results; the `except` block writes the
error message instead.  `exec` is the oracle giving each SQL text's
execution outcome. -/
def run_query (exec : String → Except String (List String × List (List String)))
    (q : String × String) : String × QueryOutcome :=
  match exec q.2 with
  | Except.ok (cols, rows) => (q.1, QueryOutcome.results cols rows)
  | Except.error e => (q.1, QueryOutcome.failure e)

/-- The query loop of `export_sample_queries` (lines 240-260): each query
of the set is processed in order, each iteration's outcome recorded in the
results file, no iteration aborting the loop. -/
def sample_queries_loop (exec : String → Except String (List String × List (List String))) :
    List (String × String) → List (String × QueryOutcome)
  | [] => []
  | q :: rest => run_query exec q :: sample_queries_loop exec rest

/-- The sequence of per-query sections of `sample_queries_results.txt`
written by `export_sample_queries`. -/
def export_sample_queries (exec : String → Except String (List String × List (List String))) :
    List (String × QueryOutcome) :=
  sample_queries_loop exec sample_queries

/-- How an invocation of `run_extraction` can end, as seen by the
`__main__` handler (lines 329-336). -/
inductive RunOutcome where
  | success : RunOutcome
  | keyboardInterrupt : RunOutcome
  | exception (msg : String) : RunOutcome
deriving DecidableEq, Repr

/-- The `__main__` block (lines 329-336): the lines it prints beyond those
of `run_extraction` itself, paired with the process exit status.  A
`KeyboardInterrupt` and a general exception are caught by distinct
handlers; neither handler re-raises or calls `sys.exit`, so the script
falls off the end and the interpreter exits with status `0` in all three
cases. -/
def main_handler : RunOutcome → List String × Nat
  | RunOutcome.success => ([], 0)
  | RunOutcome.keyboardInterrupt => (["\n[WARN] Extraction cancelled by user"], 0)
  | RunOutcome.exception e => (["\n[ERROR] Extraction failed: " ++ e], 0)

/-- A `datetime.now()` reading.  `strftime('%Y%m%d_%H%M%S')` uses only the
fields down to the second; `microsecond` is carried to express that two
distinct readings can fall in the same second. -/
structure Timestamp where
  year : Nat
  month : Nat
  day : Nat
  hour : Nat
  minute : Nat
  second : Nat
  microsecond : Nat
deriving DecidableEq, Repr

/-- Two-digit zero-padded field of `strftime`. -/
def pad2 (n : Nat) : String :=
  if n < 10 then "0" ++ toString n else toString n

/-- Four-digit zero-padded field of `strftime`. -/
def pad4 (n : Nat) : String :=
  if n < 10 then "000" ++ toString n
  else if n < 100 then "00" ++ toString n
  else if n < 1000 then "0" ++ toString n
  else toString n

/-- `datetime.now().strftime('%Y%m%d_%H%M%S')` (line 37): second
resolution, the microsecond field unused. -/
def strftime_YmdHMS (t : Timestamp) : String :=
  pad4 t.year ++ pad2 t.month ++ pad2 t.day ++ "_"
    ++ pad2 t.hour ++ pad2 t.minute ++ pad2 t.second

/-- The output directory name chosen by `create_output_structure`
(lines 37-38) for a run starting at `t`. -/
def create_output_structure (t : Timestamp) : String :=
  "database_export_" ++ strftime_YmdHMS t

example : create_output_structure ⟨2025, 10, 12, 14, 30, 5, 0⟩
    = "database_export_20251012_143005" := rfl

/-- Lexicographic less-or-equal on code-point sequences: the order
PostgreSQL's `ORDER BY table_name` induces on the table names in this
model. -/
def lexLe : List Nat → List Nat → Bool
  | [], _ => true
  | _ :: _, [] => false
  | a :: as, b :: bs => decide (a < b) || (a == b && lexLe as bs)

/-- `ORDER BY table_name` comparison on strings, via code points. -/
def strLe (a b : String) : Bool :=
  lexLe (a.data.map Char.toNat) (b.data.map Char.toNat)

/-- `anySuffix f s` holds when `f` accepts some suffix of `s` (including
`s` itself and the empty suffix): the search a `%` wildcard performs. -/
def anySuffix (f : List Char → Bool) : List Char → Bool
  | [] => f []
  | c :: cs => f (c :: cs) || anySuffix f cs

/-- SQL `LIKE` pattern matching as used by the predicate on line 60:
`%` matches any (possibly empty) sequence of characters, `_` matches
exactly one character, and any other pattern character matches itself. -/
def likeMatch : List Char → List Char → Bool
  | [], s => s.isEmpty
  | '%' :: ps, s => anySuffix (likeMatch ps) s
  | '_' :: _, [] => false
  | '_' :: ps, _ :: cs => likeMatch ps cs
  | _ :: _, [] => false
  | p :: ps, c :: cs => p == c && likeMatch ps cs

/-- The strLe relation as a `Prop`, for the sorting lemmas. -/
def strLeRel (a b : String) : Prop := strLe a b = true

instance strLeRelDecidable : DecidableRel strLeRel := by
  intro a b
  unfold strLeRel
  infer_instance

/-- `get_all_tables` (lines 53-66): over the catalog rows of
`information_schema.tables`, given as `(table_schema, table_name)` pairs,
it keeps the rows with `table_schema = 'public'` whose name does not match
the `LIKE` pattern `'pg_%'`, and returns the names ordered ascending by
name. -/
def get_all_tables (catalog : List (String × String)) : List String :=
  List.insertionSort strLeRel
    ((catalog.filter
      (fun row => row.1 == "public" && !(likeMatch "pg_%".data row.2.data))).map Prod.snd)

/-- A name carrying the PostgreSQL system-table name marker: the literal
characters `p`, `g`, `_` at the start of the name. -/
def hasSystemMarker (nm : String) : Bool :=
  match nm.data with
  | 'p' :: 'g' :: '_' :: _ => true
  | _ => false

/-- The Schema Inspector contract in the spec's words, for comparison with
`get_all_tables`: "returns all table names in the default schema,
excluding system tables, ordered by name" — a system table being one whose
name starts with the literal marker `pg_`. -/
def spec_user_tables (catalog : List (String × String)) : List String :=
  List.insertionSort strLeRel
    ((catalog.filter
      (fun row => row.1 == "public" && !(hasSystemMarker row.2))).map Prod.snd)

example : get_all_tables [("public", "sessions"), ("public", "game_ticks")]
    = ["game_ticks", "sessions"] := rfl
example : get_all_tables [("public", "pg_stat_foo"), ("pg_catalog", "pg_class")] = [] := rfl
example : get_all_tables [("public", "pgfoo")] = [] := rfl
example : spec_user_tables [("public", "pgfoo")] = ["pgfoo"] := rfl

/-! ### Supporting lemmas -/

theorem json_data_loop_eq_map (cols : List String) (rows : List (List Value)) :
    json_data_loop cols rows = rows.map (row_dict cols) := by
  induction rows with
  | nil => rfl
  | cons r rest ih => simp [json_data_loop, ih]

theorem csv_rows_loop_eq_map (rows : List (List Value)) :
    csv_rows_loop rows = rows.map (fun r => r.map csvCell) := by
  induction rows with
  | nil => rfl
  | cons r rest ih => simp [csv_rows_loop, ih]

theorem summary_loop_fst (ti : List (String × TableInfo)) :
    ∀ acc : Nat, (summary_loop acc ti).1 = acc + (ti.map (fun p => p.2.row_count)).sum := by
  induction ti with
  | nil => intro acc; simp [summary_loop]
  | cons p rest ih =>
    intro acc
    cases p with
    | mk nm info => simp [summary_loop, ih]; omega

theorem run_extraction_exports_eq_map (qcsv qjson : String → Except String Unit)
    (tables : List String) :
    run_extraction_exports qcsv qjson tables
      = tables.map (fun t => (t, export_attempt qcsv t, export_attempt qjson t)) := by
  induction tables with
  | nil => rfl
  | cons t rest ih => simp [run_extraction_exports, ih]

theorem sample_queries_loop_eq_map
    (exec : String → Except String (List String × List (List String)))
    (qs : List (String × String)) :
    sample_queries_loop exec qs = qs.map (run_query exec) := by
  induction qs with
  | nil => rfl
  | cons q rest ih => simp [sample_queries_loop, ih]

theorem row_dict_map_snd (cols : List String) :
    ∀ row : List Value,
      (row_dict cols row).map Prod.snd = (row.take cols.length).map convertValue := by
  induction cols with
  | nil => intro row; cases row <;> rfl
  | cons c cs ih =>
    intro row
    cases row with
    | nil => rfl
    | cons v vs => simp [row_dict, ih]

theorem lexLe_total (as : List Nat) : ∀ bs : List Nat,
    lexLe as bs = true ∨ lexLe bs as = true := by
  induction as with
  | nil => intro bs; left; rfl
  | cons a as ih =>
    intro bs
    cases bs with
    | nil => right; rfl
    | cons b bs =>
      rcases Nat.lt_trichotomy a b with h | h | h
      · left; simp [lexLe, h]
      · subst h
        rcases ih bs with h2 | h2
        · left; simp [lexLe, h2]
        · right; simp [lexLe, h2]
      · right; simp [lexLe, h]

theorem lexLe_trans (as : List Nat) : ∀ bs cs : List Nat,
    lexLe as bs = true → lexLe bs cs = true → lexLe as cs = true := by
  induction as with
  | nil => intro bs cs _ _; rfl
  | cons a as ih =>
    intro bs cs h1 h2
    cases bs with
    | nil => simp [lexLe] at h1
    | cons b bs =>
      cases cs with
      | nil => simp [lexLe] at h2
      | cons c cs =>
        simp [lexLe] at h1 h2 ⊢
        rcases h1 with h1 | ⟨h1e, h1r⟩ <;> rcases h2 with h2 | ⟨h2e, h2r⟩
        · left; omega
        · left; omega
        · left; omega
        · right; exact ⟨by omega, ih bs cs h1r h2r⟩

instance strLeRelTotal : IsTotal String strLeRel :=
  ⟨fun a b => lexLe_total _ _⟩

instance strLeRelTrans : IsTrans String strLeRel :=
  ⟨fun a b c => lexLe_trans _ _ _⟩

theorem anySuffix_likeMatch_nil (s : List Char) :
    anySuffix (likeMatch []) s = true := by
  induction s with
  | nil => rfl
  | cons c cs ih => simp [anySuffix, ih]

theorem likeMatch_pg_pattern (s : List Char) :
    likeMatch "pg_%".data s = true ↔ ∃ c rest, s = 'p' :: 'g' :: c :: rest := by
  show likeMatch ['p', 'g', '_', '%'] s = true ↔ _
  constructor
  · intro h
    cases s with
    | nil => simp [likeMatch] at h
    | cons c1 s1 =>
      cases s1 with
      | nil => simp [likeMatch] at h
      | cons c2 s2 =>
        cases s2 with
        | nil => simp [likeMatch] at h
        | cons c3 s3 =>
          simp [likeMatch] at h
          exact ⟨c3, s3, by simp [← h.1, ← h.2.1]⟩
  · rintro ⟨c, rest, rfl⟩
    simp [likeMatch]
    exact anySuffix_likeMatch_nil rest

theorem string_append_left_cancel {s a b : String} (h : s ++ a = s ++ b) : a = b := by
  cases s with
  | mk sd =>
    cases a with
    | mk ad =>
      cases b with
      | mk bd =>
        have h2 : sd ++ ad = sd ++ bd := congrArg String.data h
        have h3 : ad = bd := List.append_cancel_left h2
        rw [h3]

/-! ### Claims -/

/-- C1: the export loop of `run_extraction` makes exactly one CSV attempt
and one JSON attempt per table returned by the Schema Inspector, in order;
each attempt's caught failure (a `False` return) affects neither the rest
of the run nor any other table's attempts, since every table's pair of
outcomes is a function of that table alone. -/
theorem c1_one_attempt_per_table (qcsv qjson : String → Except String Unit)
    (tables : List String) :
    run_extraction_exports qcsv qjson tables
        = tables.map (fun t => (t, export_attempt qcsv t, export_attempt qjson t))
      ∧ (run_extraction_exports qcsv qjson tables).map Prod.fst = tables
      ∧ ∀ t : String,
          ((run_extraction_exports qcsv qjson tables).map Prod.fst).count t
            = tables.count t := by
  have h := run_extraction_exports_eq_map qcsv qjson tables
  have hfst : (run_extraction_exports qcsv qjson tables).map Prod.fst = tables := by
    rw [h, List.map_map]
    exact List.map_id tables
  exact ⟨h, hfst, fun t => by rw [hfst]⟩

/-- C2: `export_table_to_json` writes at most `limit` records, and the
records written are exactly the converted first `limit` rows of the
unrestricted `SELECT`. -/
theorem c2_json_respects_limit (t : Table) (limit : Nat) :
    (export_table_to_json_records t limit).length ≤ limit
      ∧ export_table_to_json_records t limit
        = ((select_all t).2.take limit).map (row_dict t.columns) := by
  have h : export_table_to_json_records t limit
      = (t.rows.take limit).map (row_dict t.columns) := by
    show json_data_loop t.columns (t.rows.take limit) = _
    exact json_data_loop_eq_map t.columns (t.rows.take limit)
  constructor
  · rw [h, List.length_map]
    exact List.length_take_le limit t.rows
  · exact h

/-- C3: for every (possibly empty) collection of Table Descriptors, the
Summary Document's `total_rows` is the sum of the descriptors'
`row_count` fields and `total_tables` is the number of descriptors. -/
theorem c3_summary_totals (ts db : String) (ti : List (String × TableInfo)) :
    (generate_summary_report ts db ti).total_rows
        = (ti.map (fun p => p.2.row_count)).sum
      ∧ (generate_summary_report ts db ti).total_tables = ti.length := by
  constructor
  · show (summary_loop 0 ti).1 = _
    rw [summary_loop_fst ti 0]
    omega
  · rfl

/-- C4: the CSV export's first record is the header of column names and
the remaining records are one per row of the export query, so a table with
zero rows yields a file holding only the header. -/
theorem c4_csv_header_and_rows (t : Table) :
    (export_table_to_csv_records t).head? = some t.columns
      ∧ (export_table_to_csv_records t).length = (select_all t).2.length + 1
      ∧ ((select_all t).2 = [] → export_table_to_csv_records t = [t.columns]) := by
  refine ⟨rfl, ?_, ?_⟩
  · show (t.columns :: csv_rows_loop t.rows).length = t.rows.length + 1
    rw [List.length_cons, csv_rows_loop_eq_map, List.length_map]
  · intro h
    show t.columns :: csv_rows_loop t.rows = [t.columns]
    rw [show t.rows = [] from h]
    rfl

/-- C4 witness: a concrete zero-row table's CSV is just the header line. -/
theorem c4_witness :
    export_table_to_csv_records ⟨["tick_id", "session_id"], []⟩
      = [["tick_id", "session_id"]] :=
  (c4_csv_header_and_rows ⟨["tick_id", "session_id"], []⟩).2.2 rfl

theorem serialize_record_eq_map (r : List (String × Value)) :
    serialize_record r = r.map (fun p => (p.1, serializeValue p.2)) := by
  induction r with
  | nil => rfl
  | cons p rest ih => cases p; simp [serialize_record, ih]

theorem json_dump_default_str_eq_map (doc : List (List (String × Value))) :
    json_dump_default_str doc = doc.map serialize_record := by
  induction doc with
  | nil => rfl
  | cons r rest ih => simp [json_dump_default_str, ih]

/-- C5 counterexample: a `numeric` column value — a `Decimal`, which has
no `isoformat` attribute, so the claim says it passes through as-is —
does not reach the written JSON document unmodified: `json.dump`'s
`default=str` fallback (line 140) replaces it by its string rendering at
write time. -/
theorem c5_counterexample :
    hasIsoformat (Value.decimal "42.50") = false
      ∧ export_table_to_json_document ⟨["price"], [[Value.decimal "42.50"]]⟩ 1000
        = [[("price", Value.str "42.50")]]
      ∧ Value.str "42.50" ≠ Value.decimal "42.50" :=
  ⟨rfl, rfl, by decide⟩

/-- C5 amended: the row-conversion loop turns every date/time-typed value
into its ISO-8601 `isoformat` string and leaves every other value
unchanged; at write time `json.dump`'s `default=str` keeps JSON-native
values (null, booleans, integers, strings) as-is in the document but
replaces every remaining non-serializable value (`Decimal`, `timedelta`,
`memoryview`) by its `str()` rendering — so per source value the document
holds the serialisation of its conversion, not always the value itself. -/
theorem c5_amended_written_values :
    (∀ iso : String, convertValue (Value.timestamp iso) = Value.str iso)
      ∧ (∀ v : Value, hasIsoformat v = false → convertValue v = v)
      ∧ (∀ v : Value, jsonSerializable v = true → serializeValue v = v)
      ∧ (∀ v : Value, jsonSerializable v = false →
          serializeValue v = Value.str (pyStr v))
      ∧ (∀ t : Table, ∀ limit : Nat,
          export_table_to_json_document t limit
            = ((select_all t).2.take limit).map
                (fun row => serialize_record (row_dict t.columns row)))
      ∧ (∀ cols : List String, ∀ row : List Value,
          (serialize_record (row_dict cols row)).map Prod.snd
            = (row.take cols.length).map (fun v => serializeValue (convertValue v))) := by
  refine ⟨fun iso => rfl, ?_, ?_, ?_, ?_, ?_⟩
  · intro v h
    cases v with
    | timestamp iso => simp [hasIsoformat] at h
    | _ => rfl
  · intro v h
    simp [serializeValue, h]
  · intro v h
    simp [serializeValue, h]
  · intro t limit
    show json_dump_default_str (json_data_loop t.columns (t.rows.take limit)) = _
    rw [json_dump_default_str_eq_map, json_data_loop_eq_map, List.map_map]
    rfl
  · intro cols row
    rw [serialize_record_eq_map, List.map_map]
    rw [show (Prod.snd ∘ fun p : String × Value => (p.1, serializeValue p.2))
        = serializeValue ∘ Prod.snd from rfl]
    rw [← List.map_map, row_dict_map_snd, List.map_map]
    rfl

/-- C5 witness: an `interval` value (a `timedelta`, no `isoformat`
attribute) survives the conversion loop unchanged and is then stringified
by the `default=str` fallback on its way into the document. -/
theorem c5_witness :
    convertValue (Value.timedelta "1:00:00") = Value.timedelta "1:00:00"
      ∧ serializeValue (Value.timedelta "1:00:00") = Value.str "1:00:00" :=
  ⟨c5_amended_written_values.2.1 (Value.timedelta "1:00:00") rfl,
   c5_amended_written_values.2.2.2.1 (Value.timedelta "1:00:00") rfl⟩

/-- C6: the Sample Query Runner records one section per fixed query, in
order; each section is determined by that query's own execution outcome
alone, and a failing query contributes its error message in place of
results while all other queries' sections still appear. -/
theorem c6_query_failures_isolated
    (exec : String → Except String (List String × List (List String))) :
    export_sample_queries exec = sample_queries.map (run_query exec)
      ∧ (export_sample_queries exec).map Prod.fst = sample_queries.map Prod.fst
      ∧ (∀ q ∈ sample_queries, ∀ e : String, exec q.2 = Except.error e →
          (q.1, QueryOutcome.failure e) ∈ export_sample_queries exec) := by
  have h := sample_queries_loop_eq_map exec sample_queries
  have h2 : (export_sample_queries exec).map Prod.fst = sample_queries.map Prod.fst := by
    show (sample_queries_loop exec sample_queries).map Prod.fst = _
    rw [h, List.map_map]
    apply List.map_congr_left
    intro q _
    show (run_query exec q).1 = q.1
    unfold run_query
    cases exec q.2 with
    | ok r => cases r; rfl
    | error e => rfl
  refine ⟨h, h2, ?_⟩
  intro q hq e he
  show (q.1, QueryOutcome.failure e) ∈ sample_queries_loop exec sample_queries
  rw [h]
  have : run_query exec q = (q.1, QueryOutcome.failure e) := by
    simp [run_query, he]
  exact this ▸ List.mem_map_of_mem (run_query exec) hq

/-- C6 witness: with every execution failing with `boom`, the first fixed
query's section records the error in place of results. -/
theorem c6_witness :
    ("sessions_overview", QueryOutcome.failure "boom")
      ∈ export_sample_queries (fun _ => Except.error "boom") :=
  (c6_query_failures_isolated (fun _ => Except.error "boom")).2.2
    ("sessions_overview",
      "SELECT session_id, player_name, start_time, end_time, EXTRACT(EPOCH FROM (end_time - start_time))/60 as duration_minutes FROM sessions ORDER BY start_time DESC LIMIT 10;")
    (by simp [sample_queries]) "boom" rfl

/-- The error banner of the general exception handler never coincides
with the cancellation message of the interrupt handler: they differ at the
third character already. -/
theorem error_banner_ne_cancel (e : String) :
    "\n[ERROR] Extraction failed: " ++ e ≠ "\n[WARN] Extraction cancelled by user" := by
  intro h
  have hd : ("\n[ERROR] Extraction failed: ").data ++ e.data
      = ("\n[WARN] Extraction cancelled by user").data := by
    rw [← String.data_append, h]
  have h2 : (("\n[ERROR] Extraction failed: ").data ++ e.data).get? 2
      = (("\n[WARN] Extraction cancelled by user").data).get? 2 := by rw [hd]
  have hlen : 2 < ("\n[ERROR] Extraction failed: ").data.length := by decide
  rw [List.get?_append hlen] at h2
  have h3 : ("\n[ERROR] Extraction failed: ").data.get? 2 = some 'E' := by decide
  have h4 : ("\n[WARN] Extraction cancelled by user").data.get? 2 = some 'W' := by decide
  rw [h3, h4] at h2
  exact absurd h2 (by decide)

/-- C7 counterexample: an unhandled exception escaping the extraction is
caught by the bare handler of the `__main__` block, which prints the error
banner and falls through, so the interpreter exits with status `0` — not
with a non-zero status as claimed. -/
theorem c7_counterexample :
    main_handler (RunOutcome.exception "boom")
      = (["\n[ERROR] Extraction failed: boom"], 0) := rfl

/-- C7 amended: the process exits with status zero on a fully successful
run; when an unhandled exception escapes the extraction it prints the
error banner but still exits with status zero (the handler swallows the
exception and sets no exit code); a keyboard interrupt is handled on a
distinct path whose cancellation message is never the failure banner. -/
theorem c7_amended_exit_paths (e : String) :
    (main_handler RunOutcome.success).2 = 0
      ∧ main_handler (RunOutcome.exception e)
        = (["\n[ERROR] Extraction failed: " ++ e], 0)
      ∧ main_handler RunOutcome.keyboardInterrupt
        = (["\n[WARN] Extraction cancelled by user"], 0)
      ∧ (main_handler (RunOutcome.exception e)).1
        ≠ (main_handler RunOutcome.keyboardInterrupt).1 := by
  refine ⟨rfl, rfl, rfl, ?_⟩
  intro h
  have h2 : some ("\n[ERROR] Extraction failed: " ++ e)
      = some "\n[WARN] Extraction cancelled by user" := congrArg List.head? h
  exact error_banner_ne_cancel e (Option.some.inj h2)

/-- C7 witness: at a concrete exception the failure banner differs from
the cancellation message. -/
theorem c7_witness :
    (main_handler (RunOutcome.exception "boom")).1
      ≠ (main_handler RunOutcome.keyboardInterrupt).1 :=
  (c7_amended_exit_paths "boom").2.2.2

/-- C8 counterexample: two distinct run start times falling in the same
second (they differ only in the microsecond field) are mapped by
`create_output_structure` to the same output directory name, so the
directory names of two runs are not always distinct. -/
theorem c8_counterexample :
    (⟨2025, 10, 12, 14, 30, 5, 0⟩ : Timestamp) ≠ ⟨2025, 10, 12, 14, 30, 5, 999999⟩
      ∧ create_output_structure ⟨2025, 10, 12, 14, 30, 5, 0⟩
        = create_output_structure ⟨2025, 10, 12, 14, 30, 5, 999999⟩ :=
  ⟨by decide, rfl⟩

/-- C8 amended: the output directory names of two runs are distinct
whenever the runs' formatted start timestamps (second resolution,
`%Y%m%d_%H%M%S`) differ; two runs starting within the same second share
one directory name. -/
theorem c8_amended_distinct_dirs (t1 t2 : Timestamp)
    (h : strftime_YmdHMS t1 ≠ strftime_YmdHMS t2) :
    create_output_structure t1 ≠ create_output_structure t2 := by
  intro hc
  exact h (string_append_left_cancel hc)

/-- C8 witness: two runs one second apart get distinct directories. -/
theorem c8_witness :
    create_output_structure ⟨2025, 10, 12, 14, 30, 5, 0⟩
      ≠ create_output_structure ⟨2025, 10, 12, 14, 30, 6, 0⟩ :=
  c8_amended_distinct_dirs ⟨2025, 10, 12, 14, 30, 5, 0⟩ ⟨2025, 10, 12, 14, 30, 6, 0⟩
    (by decide)

/-- C9 counterexample: in the `LIKE` pattern `'pg_%'` the underscore is a
single-character wildcard, so `get_all_tables` drops the user table
`pgfoo` — whose name does not start with the literal system marker
`pg_` — and thus does not return all user tables of the default schema. -/
theorem c9_counterexample :
    get_all_tables [("public", "pgfoo"), ("public", "sessions")] = ["sessions"]
      ∧ spec_user_tables [("public", "pgfoo"), ("public", "sessions")]
        = ["pgfoo", "sessions"]
      ∧ hasSystemMarker "pgfoo" = false
      ∧ get_all_tables [("public", "pgfoo"), ("public", "sessions")]
        ≠ spec_user_tables [("public", "pgfoo"), ("public", "sessions")] :=
  ⟨rfl, rfl, rfl, by decide⟩

/-- C9 amended: `get_all_tables` returns, sorted ascending by name, the
names of exactly those catalog rows of the default (`public`) schema whose
name does not match the SQL `LIKE` pattern `'pg_%'`; since `_` is a
one-character wildcard, the excluded names are exactly those consisting of
`p`, `g` and at least one further character, not only the names with the
literal `pg_` marker. -/
theorem c9_amended_get_all_tables (catalog : List (String × String)) :
    List.Sorted strLeRel (get_all_tables catalog)
      ∧ (get_all_tables catalog).Perm
          ((catalog.filter
            (fun row => row.1 == "public" && !(likeMatch "pg_%".data row.2.data))).map
              Prod.snd)
      ∧ (∀ nm : String, likeMatch "pg_%".data nm.data = true ↔
          ∃ c rest, nm.data = 'p' :: 'g' :: c :: rest) :=
  ⟨List.sorted_insertionSort strLeRel _, List.perm_insertionSort strLeRel _,
    fun nm => likeMatch_pg_pattern nm.data⟩

/-- C9 witness: the name `pgq` matches the pattern by the wildcard
reading, as the amended characterisation predicts. -/
theorem c9_witness : likeMatch "pg_%".data "pgq".data = true :=
  ((c9_amended_get_all_tables []).2.2 "pgq").mpr ⟨'q', [], rfl⟩

/-- C10: `export_table_to_json` opens its output file only in the success
branch, after query and conversion; when the fallible steps fail, it
returns `False` with the filesystem unchanged, and on success it writes
exactly one new file holding the converted records. -/
theorem c10_no_file_on_error :
    (∀ e : String, ∀ path : String, ∀ fs : FS,
        export_table_to_json (Except.error e) path fs = (false, fs))
      ∧ (∀ cols : List String, ∀ rows : List (List Value), ∀ path : String, ∀ fs : FS,
          export_table_to_json (Except.ok (cols, rows)) path fs
            = (true, (path, json_data_loop cols rows) :: fs)) :=
  ⟨fun _ _ _ => rfl, fun _ _ _ _ => rfl⟩
